import Mathlib

/-!
Shallow embedding of the kippnorcal/zoom connector (src/main.py, src/config.py).

Records returned by the Zoom API are modelled as association lists from field
name to an optional string value (a value of none models JSON null / NaN).
Pandas dataframes are modelled by their column list plus the backing records.
Side effects of a loader run (API requests, sleeps, table drops, inserts,
log lines) are gathered in an explicit Effects record.  While loops from the
source are modelled with an explicit fuel argument; running out of fuel is
reported as a distinct diverged outcome, so that a loop of the source that
never terminates is visible as: for every fuel the run is diverged.
-/

/-- A raw API record: field name to optional value, as parsed from JSON. -/
abbrev Rec := List (String × Option String)

/-- The keys of a record, in order. -/
def recKeys (r : Rec) : List String := r.map Prod.fst

/-- Python dict.get: the value under a key, none when the key is absent. -/
def getV (r : Rec) (k : String) : Option String := (r.lookup k).join

/-- The column list pandas derives from a list of record dicts: the union of
all keys in order of first appearance. -/
def dfColumns (records : List Rec) : List String :=
  (records.foldl (fun acc r => acc ++ recKeys r) []).dedup

/-- A pandas DataFrame: a column list plus the backing records.  The cell of
record r at column c is given by getV r c. -/
structure DataFrame where
  columns : List String
  records : List Rec
  deriving DecidableEq, Repr

/-- pd.DataFrame(records): columns are the union of the record keys. -/
def pdDataFrame (records : List Rec) : DataFrame :=
  ⟨dfColumns records, records⟩

/-- df.reindex(columns=cols): the column list is replaced by cols; a column
absent from the original frame reads as NaN.  For frames built by pdDataFrame
the cell lookup getV already returns none for keys a record lacks, so only
the column list changes. -/
def DataFrame.reindex (df : DataFrame) (cols : List String) : DataFrame :=
  ⟨cols, df.records⟩

/-- A calendar date, as used by datetime.date. -/
structure Date where
  year : Nat
  month : Nat
  day : Nat
  deriving DecidableEq, Repr

/-- Python date comparison a < b (lexicographic on year, month, day). -/
def dateLt (a b : Date) : Prop :=
  a.year < b.year ∨ (a.year = b.year ∧
    (a.month < b.month ∨ (a.month = b.month ∧ a.day < b.day)))

/-- Python date comparison a <= b. -/
def dateLe (a b : Date) : Prop :=
  a.year < b.year ∨ (a.year = b.year ∧
    (a.month < b.month ∨ (a.month = b.month ∧ a.day ≤ b.day)))

instance (a b : Date) : Decidable (dateLt a b) :=
  inferInstanceAs (Decidable (a.year < b.year ∨ (a.year = b.year ∧
    (a.month < b.month ∨ (a.month = b.month ∧ a.day < b.day)))))

instance (a b : Date) : Decidable (dateLe a b) :=
  inferInstanceAs (Decidable (a.year < b.year ∨ (a.year = b.year ∧
    (a.month < b.month ∨ (a.month = b.month ∧ a.day ≤ b.day)))))

/-- Gregorian leap year rule, as used by datetime. -/
def isLeapYear (y : Nat) : Bool :=
  (y % 4 == 0 && y % 100 != 0) || y % 400 == 0

/-- Number of days in a month, as used by datetime. -/
def daysInMonth (y m : Nat) : Nat :=
  if m == 2 then (if isLeapYear y then 29 else 28)
  else if m == 4 || m == 6 || m == 9 || m == 11 then 30
  else 31

/-- date + datetime.timedelta(days=1). -/
def nextDay (d : Date) : Date :=
  if d.day < daysInMonth d.year d.month then ⟨d.year, d.month, d.day + 1⟩
  else if d.month < 12 then ⟨d.year, d.month + 1, 1⟩
  else ⟨d.year + 1, 1, 1⟩

/-- max of two dates. -/
def dateMax (a b : Date) : Date := if dateLt a b then b else a

/-- config.USER_COLUMNS from src/config.py. -/
def USER_COLUMNS : List String :=
  ["id", "first_name", "last_name", "email", "type", "status", "pmi",
   "timezone", "dept", "created_at", "last_login_time",
   "last_client_version", "verified"]

/-- config.MEETING_COLUMNS from src/config.py. -/
def MEETING_COLUMNS : List String :=
  ["uuid", "id", "host_id", "topic", "type", "start_time", "duration",
   "timezone", "created_at", "join_url"]

/-- The observable side effects accumulated by one loader run: API requests
issued, sleep durations, tables dropped, (table, frame) inserts, the unit key
(meeting uuid or id) of each per-unit page request, the from/to window of the
meetings request params, and log lines by level. -/
structure Effects where
  requests : Nat := 0
  sleeps : List Nat := []
  drops : List String := []
  inserts : List (String × DataFrame) := []
  fetchedUnits : List String := []
  meetingWindows : List (Date × Date) := []
  debugLogs : List (Option String) := []
  infoLogs : List String := []
  errorLogs : List String := []
  creates : List String := []
  deriving DecidableEq, Repr

/-- Result of a run: normal return with its effects, a propagated Python
exception with the effects performed before the raise, or divergence (the
fuel bound was reached without the source loop terminating). -/
inductive Outcome (α : Type) where
  | ok : α → Effects → Outcome α
  | raised : String → Effects → Outcome α
  | diverged : Outcome α
  deriving DecidableEq, Repr

/-- The effects of an outcome; a diverged run exposes no final effects. -/
def Outcome.effects : Outcome α → Effects
  | .ok _ e => e
  | .raised _ e => e
  | .diverged => ({} : Effects)

/-- Whether the run ended in a propagated exception. -/
def Outcome.didRaise : Outcome α → Bool
  | .raised _ _ => true
  | _ => false

/-- Parsed body of client.user.list: the page_count field (absent field models
a body without the key, read with a raising index access) and the users list
(none models an absent users key). -/
structure UsersResponse where
  page_count : Option Nat := none
  users : Option (List Rec) := none
  deriving DecidableEq, Repr

/-- Parsed body of client.group.list.  nonempty_body models Python truthiness
of the parsed dict in the statement if response. -/
structure GroupsResponse where
  nonempty_body : Bool := true
  groups : Option (List Rec) := none
  deriving DecidableEq, Repr

/-- Parsed body of the metric and meeting endpoints: embedded status code,
message, the payload lists, and the continuation token. -/
structure ApiResponse where
  code : Option Nat := none
  message : Option String := none
  participants : Option (List Rec) := none
  meetings : Option (List Rec) := none
  settings : Option Rec := none
  next_page_token : Option String := none
  deriving DecidableEq, Repr

/-- Python truthiness of the page_token value: an absent token and the empty
string are falsy, any other string is truthy. -/
def tokenTruthy : Option String → Bool
  | none => false
  | some s => !s.isEmpty

/-- tenacity wait_exponential(multiplier=2, min=4, max=10): the sleep after
failed attempt number n is multiplier * 2 to the n, clamped to [min, max],
per the tenacity documentation of RETRY_PARAMS in src/main.py. -/
def backoff_wait (attempt : Nat) : Nat :=
  max 4 (min (2 * 2 ^ attempt) 10)

instance {ε α : Type} [DecidableEq ε] [DecidableEq α] :
    DecidableEq (Except ε α) := fun a b =>
  match a, b with
  | .error e1, .error e2 => decidable_of_iff (e1 = e2) (by simp)
  | .error _, .ok _ => .isFalse (by simp)
  | .ok _, .error _ => .isFalse (by simp)
  | .ok a1, .ok a2 => decidable_of_iff (a1 = a2) (by simp)

/-- Result of a tenacity-wrapped call: the final result, the number of the
attempt that produced it, and the backoff sleeps performed in order. -/
structure RetryResult (α : Type) where
  result : Except String α
  attempts : Nat
  sleeps : List Nat
  deriving DecidableEq, Repr

/-- The tenacity retry loop: remaining attempts allowed, current attempt
number, sleeps so far.  After a failed attempt with attempts remaining it
sleeps backoff_wait of the failed attempt number and tries again; exhausting
the budget surfaces the last error. -/
def retry_go (call : Nat → Except String α) :
    Nat → Nat → List Nat → RetryResult α
  | 0, attempt, sleeps => ⟨.error "retry budget exhausted", attempt, sleeps⟩
  | remaining + 1, attempt, sleeps =>
    match call attempt with
    | .ok a => ⟨.ok a, attempt, sleeps⟩
    | .error e =>
      if remaining == 0 then ⟨.error e, attempt, sleeps⟩
      else retry_go call remaining (attempt + 1) (sleeps ++ [backoff_wait attempt])

/-- tenacity retry with RETRY_PARAMS from src/main.py: stop_after_attempt(3),
wait_exponential(multiplier=2, min=4, max=10). -/
def retry_call (call : Nat → Except String α) : RetryResult α :=
  retry_go call 3 1 []

/-- The pagination loop of Connector.load_users (src/main.py lines 59-68).
Each iteration fetches the current page; when the users list is truthy the
batch is reindexed to USER_COLUMNS, inserted, and the page number advances;
otherwise the loop body ends without touching the page number. -/
def load_users_loop (fetch : Nat → Except String UsersResponse) :
    Nat → Nat → Nat → Nat → Effects → Outcome Nat
  | 0, _, _, _, _ => .diverged
  | fuel + 1, page, page_count, total, eff =>
    if page ≤ page_count then
      match fetch page with
      | .error e => .raised e { eff with requests := eff.requests + 1 }
      | .ok response =>
        let results := response.users.getD []
        let eff := { eff with
          requests := eff.requests + 1,
          inserts := if results.isEmpty then eff.inserts
            else eff.inserts ++
              [("Zoom_Users",
                DataFrame.reindex (pdDataFrame results) USER_COLUMNS)] }
        if results.isEmpty then
          load_users_loop fetch fuel page page_count total eff
        else
          load_users_loop fetch fuel (page + 1) page_count
            (total + results.length) eff
    else .ok total eff

/-- Connector.load_users (src/main.py lines 50-69): an initial fetch reads
page_count (a raising key access), the table is dropped (a parsed body that
yielded page_count is a nonempty dict, hence truthy), then the pagination
loop runs.  fetch maps a page number to the parsed body or a raised
exception; fuel bounds the while loop. -/
def load_users (fetch : Nat → Except String UsersResponse) (fuel : Nat) :
    Outcome Nat :=
  match fetch 1 with
  | .error e => .raised e { requests := 1 }
  | .ok response =>
    match response.page_count with
    | none => .raised "KeyError: page_count" { requests := 1 }
    | some page_count =>
      load_users_loop fetch fuel 1 page_count 0
        { requests := 1, drops := ["Zoom_Users"] }

/-- Connector.load_groups (src/main.py lines 125-135): one fetch, the table
is dropped when the body is truthy, and a truthy groups list is inserted as a
raw dataframe. -/
def load_groups (fetch : Unit → Except String GroupsResponse) : Outcome Unit :=
  match fetch () with
  | .error e => .raised e { requests := 1 }
  | .ok response =>
    let eff : Effects := { requests := 1 }
    let eff := if response.nonempty_body
      then { eff with drops := eff.drops ++ ["Zoom_Groups"] } else eff
    match response.groups with
    | some results =>
      if results.isEmpty then .ok () eff
      else .ok () { eff with inserts := eff.inserts ++
          [("Zoom_Groups", pdDataFrame results)] }
    | none => .ok () eff

/-- Connector._get_meeting_uuids (src/main.py lines 71-91): when the child
table exists, the anti-join query returns the distinct parent uuids with no
matching participant row; otherwise the full uuid column of Zoom_Meetings. -/
def get_meeting_uuids (childTableExists : Bool)
    (meetingKeys childKeys : List String) : List String :=
  if childTableExists then
    (meetingKeys.filter (fun u => !childKeys.contains u)).dedup
  else meetingKeys

/-- Connector._get_meeting_ids (src/main.py lines 304-322): same anti-join
shape as _get_meeting_uuids, keyed on meeting id against the settings table. -/
def get_meeting_ids (childTableExists : Bool)
    (meetingKeys childKeys : List String) : List String :=
  if childTableExists then
    (meetingKeys.filter (fun i => !childKeys.contains i)).dedup
  else meetingKeys

/-- The per-meeting token pagination loop of Connector.load_participants
(src/main.py lines 103-118).  resp maps the request ordinal to the parsed
body.  A body with code 429 adds a 10 second sleep; a truthy participants
list gets meeting_uuid attached and is inserted; then the loop continues
exactly when the next_page_token of the current body is truthy.  Returns the
next request ordinal, the updated running total, and the effects. -/
def participants_pages (resp : Nat → ApiResponse) (uuid : String) :
    Nat → Nat → Nat → Effects → Option (Nat × Nat × Effects)
  | 0, _, _, _ => none
  | fuel + 1, k, total, eff =>
    let response := resp k
    let results := response.participants.getD []
    let eff := { eff with
      requests := eff.requests + 1,
      fetchedUnits := eff.fetchedUnits ++ [uuid],
      sleeps := if response.code == some 429 then eff.sleeps ++ [10]
        else eff.sleeps,
      inserts := if results.isEmpty then eff.inserts
        else eff.inserts ++
          [("Zoom_Participants", pdDataFrame
            (results.map (fun r => r ++ [("meeting_uuid", some uuid)])))] }
    let total := if results.isEmpty then total else total + results.length
    if tokenTruthy response.next_page_token then
      participants_pages resp uuid fuel (k + 1) total eff
    else some (k + 1, total, eff)

/-- The outer uuid loop of Connector.load_participants (src/main.py lines
100-118): one token pagination per resolved meeting uuid. -/
def load_participants_aux (resp : Nat → ApiResponse) :
    List String → Nat → Nat → Nat → Effects → Option (Nat × Effects)
  | [], _, _, total, eff => some (total, eff)
  | uuid :: rest, fuel, k, total, eff =>
    match participants_pages resp uuid fuel k total eff with
    | none => none
    | some (k2, total2, eff2) =>
      load_participants_aux resp rest fuel k2 total2 eff2

/-- Connector.load_participants (src/main.py lines 95-121): resolve the
unsynced meeting uuids, then run the pagination per uuid. -/
def load_participants (childTableExists : Bool)
    (meetingKeys childKeys : List String)
    (resp : Nat → ApiResponse) (fuel : Nat) : Outcome Nat :=
  let uuids := get_meeting_uuids childTableExists meetingKeys childKeys
  match load_participants_aux resp uuids fuel 0 0 ({} : Effects) with
  | none => .diverged
  | some (total, eff) => .ok total eff

/-- Connector.get_school_start_date (src/main.py lines 242-249): August 1 of
the current year when the month is past June, of the previous year otherwise. -/
def get_school_start_date (today : Date) : Date :=
  if today.month > 6 then ⟨today.year, 8, 1⟩ else ⟨today.year - 1, 8, 1⟩

/-- Connector.get_last_meeting_date (src/main.py lines 251-267): when the
Zoom_Meetings table exists and holds rows with a non-null max start_time, the
day after that max; otherwise the school start date.  persisted is the list
of start_time dates read from the table. -/
def get_last_meeting_date (today : Date) (tableExists : Bool)
    (persisted : List Date) : Date :=
  let date := get_school_start_date today
  if tableExists then
    match persisted with
    | [] => date
    | d :: ds => nextDay (ds.foldl dateMax d)
  else date

/-- The token pagination loop of Connector.load_meetings (src/main.py lines
225-234).  A body with code 429 adds a 60 second sleep; a truthy meetings
list extends the accumulator; the loop continues exactly when the
next_page_token of the current body is truthy. -/
def meetings_pages (resp : Nat → ApiResponse) :
    Nat → Nat → List Rec → Effects → Option (List Rec × Effects)
  | 0, _, _, _ => none
  | fuel + 1, k, acc, eff =>
    let response := resp k
    let results := response.meetings.getD []
    let eff := { eff with
      requests := eff.requests + 1,
      sleeps := if response.code == some 429 then eff.sleeps ++ [60]
        else eff.sleeps }
    let acc := if results.isEmpty then acc else acc ++ results
    if tokenTruthy response.next_page_token then
      meetings_pages resp fuel (k + 1) acc eff
    else some (acc, eff)

/-- Connector.load_meetings (src/main.py lines 206-240): resolve the run
date; when it is today or later return at once; otherwise request the window
from run_date to run_date, walk the token pagination, and insert the
accumulated meetings as a raw dataframe when nonempty. -/
def load_meetings (today : Date) (tableExists : Bool) (persisted : List Date)
    (resp : Nat → ApiResponse) (fuel : Nat) : Outcome Unit :=
  let run_date := get_last_meeting_date today tableExists persisted
  if dateLe today run_date then .ok () ({} : Effects)
  else
    let eff : Effects := { meetingWindows := [(run_date, run_date)] }
    match meetings_pages resp fuel 0 [] eff with
    | none => .diverged
    | some (meetings, eff) =>
      if meetings.isEmpty then .ok () eff
      else .ok () { eff with inserts := eff.inserts ++
          [("Zoom_Meetings", pdDataFrame meetings)] }

/-- Connector._format_settings_data (src/main.py lines 324-334): the meeting
id plus the authentication-related settings fields read with dict.get. -/
def format_settings_data (item : Rec) (meeting_id : String) : Rec :=
  [("meeting_id", some meeting_id),
   ("enforce_login", getV item "enforce_login"),
   ("enforce_login_domains", getV item "enforce_login_domains"),
   ("waiting_room", getV item "waiting_room"),
   ("meeting_authentication", getV item "meeting_authentication"),
   ("authentication_domains", getV item "authentication_domains"),
   ("authentication_name", getV item "authentication_name")]

/-- The per-meeting token pagination loop of Connector.get_meeting_settings
(src/main.py lines 278-290).  A body with code 429 adds a 10 second sleep; a
body with code 3001 logs its message at debug level; the settings field
(defaulting to the empty dict) is always formatted and appended to the
results; the loop continues exactly when the next_page_token is truthy.
Returns the next request ordinal, the collected result rows, and effects. -/
def settings_pages (resp : Nat → ApiResponse) (meeting_id : String) :
    Nat → Nat → List Rec → Effects → Option (Nat × List Rec × Effects)
  | 0, _, _, _ => none
  | fuel + 1, k, results, eff =>
    let response := resp k
    let eff := { eff with
      requests := eff.requests + 1,
      fetchedUnits := eff.fetchedUnits ++ [meeting_id],
      sleeps := if response.code == some 429 then eff.sleeps ++ [10]
        else eff.sleeps,
      debugLogs := if response.code == some 3001
        then eff.debugLogs ++ [response.message] else eff.debugLogs }
    let item := response.settings.getD []
    let results := results ++ [format_settings_data item meeting_id]
    if tokenTruthy response.next_page_token then
      settings_pages resp meeting_id fuel (k + 1) results eff
    else some (k + 1, results, eff)

/-- The outer meeting-id loop of Connector.get_meeting_settings (src/main.py
lines 274-298): per meeting id, walk the pagination and insert the collected
rows when nonempty. -/
def get_meeting_settings_aux (resp : Nat → ApiResponse) :
    List String → Nat → Nat → Nat → Effects → Option (Nat × Effects)
  | [], _, _, total, eff => some (total, eff)
  | mid :: rest, fuel, k, total, eff =>
    match settings_pages resp mid fuel k [] eff with
    | none => none
    | some (k2, results, eff2) =>
      if results.isEmpty then
        get_meeting_settings_aux resp rest fuel k2 total eff2
      else
        get_meeting_settings_aux resp rest fuel k2 (total + results.length)
          { eff2 with inserts := eff2.inserts ++
              [("Zoom_Meeting_Settings", pdDataFrame results)] }

/-- Connector.get_meeting_settings (src/main.py lines 269-302) applied to an
already resolved meeting id list. -/
def get_meeting_settings (resp : Nat → ApiResponse) (meeting_ids : List String)
    (fuel : Nat) : Option (Nat × Effects) :=
  get_meeting_settings_aux resp meeting_ids fuel 0 0 ({} : Effects)

/-- A row of the vw_Zoom_NewStudentAccounts view; the source reads the email
field of each student dict directly. -/
structure Student where
  email : String
  deriving DecidableEq, Repr

/-- The account creation loop of Connector.create_student_accounts
(src/main.py lines 188-194): each creation calls the API (recorded in
creates), a success is logged at info level, an HTTPError from
raise_for_status is caught and logged at error level, and the loop always
proceeds to the next student. -/
def create_accounts_loop (createOutcome : String → Except String Unit) :
    List Student → Effects → Effects
  | [], eff => eff
  | s :: rest, eff =>
    let eff := { eff with requests := eff.requests + 1,
                          creates := eff.creates ++ [s.email] }
    let eff :=
      match createOutcome s.email with
      | .ok _ => { eff with infoLogs := eff.infoLogs ++
          ["Created account for " ++ s.email] }
      | .error e => { eff with errorLogs := eff.errorLogs ++ [e] }
    create_accounts_loop createOutcome rest eff

/-- Connector.create_student_accounts (src/main.py lines 179-202): index 0 of
the Students group id list (raising when empty), then the per-student
creation loop, then one bulk add_members call whose HTTPError is caught and
logged together with the response text. -/
def create_student_accounts (students : List Student)
    (createOutcome : String → Except String Unit) (groupIds : List String)
    (bulkOutcome : Except String Unit) (bulkText : String) : Outcome Unit :=
  match groupIds with
  | [] => .raised "IndexError: list index out of range" ({} : Effects)
  | _gid :: _ =>
    let eff := create_accounts_loop createOutcome students ({} : Effects)
    let eff := { eff with requests := eff.requests + 1 }
    match bulkOutcome with
    | .ok _ => .ok () { eff with infoLogs := eff.infoLogs ++
        ["Added new users to Students group."] }
    | .error e => .ok () { eff with errorLogs := eff.errorLogs ++ [e, bulkText] }

/-- Sequencing of two effect traces: the second trace was performed after
the first, so counts add and event lists concatenate. -/
def Effects.merge (a b : Effects) : Effects :=
  { requests := a.requests + b.requests,
    sleeps := a.sleeps ++ b.sleeps,
    drops := a.drops ++ b.drops,
    inserts := a.inserts ++ b.inserts,
    fetchedUnits := a.fetchedUnits ++ b.fetchedUnits,
    meetingWindows := a.meetingWindows ++ b.meetingWindows,
    debugLogs := a.debugLogs ++ b.debugLogs,
    infoLogs := a.infoLogs ++ b.infoLogs,
    errorLogs := a.errorLogs ++ b.errorLogs,
    creates := a.creates ++ b.creates }

/-- A trace holding one sleep, for the backoff pause between retry
attempts. -/
def sleepEffect (n : Nat) : Effects := { sleeps := [n] }

/-- The tenacity decorator around the whole of Connector.load_users
(src/main.py lines 48-50): the decorated unit is the entire loader body, so
a raising attempt is followed by the backoff sleep and a re-run of the whole
body from the start, and the effects already performed by failed attempts
(requests, the table drop, inserts) remain performed and accumulate.
fetchAt gives the fetch function seen by each attempt number. -/
def load_users_attempts (fetchAt : Nat → Nat → Except String UsersResponse)
    (fuel : Nat) : Nat → Nat → Effects → Outcome Nat
  | 0, _, acc => .raised "retry budget exhausted" acc
  | remaining + 1, attempt, acc =>
    match load_users (fetchAt attempt) fuel with
    | .ok total eff => .ok total (acc.merge eff)
    | .diverged => .diverged
    | .raised e eff =>
      if remaining == 0 then .raised e (acc.merge eff)
      else load_users_attempts fetchAt fuel remaining (attempt + 1)
        ((acc.merge eff).merge (sleepEffect (backoff_wait attempt)))

/-- retry(**RETRY_PARAMS) applied to load_users: stop_after_attempt(3) with
the wait_exponential backoff of RETRY_PARAMS. -/
def load_users_with_retry (fetchAt : Nat → Nat → Except String UsersResponse)
    (fuel : Nat) : Outcome Nat :=
  load_users_attempts fetchAt fuel 3 1 ({} : Effects)

/-- Connector.get_meeting_settings together with its first line: the meeting
id list is resolved by _get_meeting_ids before the per-meeting loop runs. -/
def load_meeting_settings (childTableExists : Bool)
    (meetingKeys childKeys : List String) (resp : Nat → ApiResponse)
    (fuel : Nat) : Option (Nat × Effects) :=
  get_meeting_settings resp
    (get_meeting_ids childTableExists meetingKeys childKeys) fuel

/-- A per-attempt users fetch script: attempt 1 returns a two-page source
whose page 1 succeeds with one record and whose page 2 raises a transient
connection error; every later attempt succeeds on both pages. -/
def retryScriptFetch : Nat → Nat → Except String UsersResponse :=
  fun attempt page =>
    if attempt == 1 then
      if page == 1 then
        .ok { page_count := some 2, users := some [[("id", some "u1")]] }
      else .error "ConnectionError"
    else
      if page == 1 then
        .ok { page_count := some 2, users := some [[("id", some "u1")]] }
      else .ok { page_count := some 2, users := some [[("id", some "u2")]] }

/-- A rate-limit body as returned by the metric endpoints with HTTP 200:
only a code and a message, no payload and no continuation token. -/
def throttleBody : ApiResponse :=
  { code := some 429,
    message := some "You have reached the maximum per-second rate limit for this API" }

/-- A deleted-meeting body from the meeting settings endpoint: Zoom error
code 3001, no settings payload and no continuation token. -/
def notFoundBody : ApiResponse :=
  { code := some 3001, message := some "Meeting does not exist or has expired." }

/-- A users body with page_count 1 and an empty users list. -/
def emptyUsersBody : UsersResponse :=
  { page_count := some 1, users := some [] }

/-- A one-page meetings body whose single record carries one field beyond
MEETING_COLUMNS, modelling a field the API added. -/
def driftedMeetingBody : ApiResponse :=
  { meetings := some
      [[("uuid", some "abc+123=="), ("id", some "98877665544"),
        ("host_id", some "h1"), ("topic", some "Math"), ("type", some "2"),
        ("start_time", some "2024-10-01T09:00:00Z"), ("duration", some "45"),
        ("timezone", some "America/Los_Angeles"),
        ("created_at", some "2024-09-30T08:00:00Z"),
        ("join_url", some "https://zoom.us/j/98877665544"),
        ("host_video", some "true")]] }

theorem dateLe_refl (a : Date) : dateLe a a := by
  unfold dateLe; omega

theorem dateLe_of_lt {a b : Date} (h : dateLt a b) : dateLe a b := by
  unfold dateLt dateLe at *; omega

theorem dateLe_of_not_lt {a b : Date} (h : ¬ dateLt a b) : dateLe b a := by
  unfold dateLt at h; unfold dateLe; omega

theorem dateLe_trans {a b c : Date} (h1 : dateLe a b) (h2 : dateLe b c) :
    dateLe a c := by
  unfold dateLe at *; omega

theorem dateLe_lt_trans {a b c : Date} (h1 : dateLe a b) (h2 : dateLt b c) :
    dateLt a c := by
  unfold dateLe at h1; unfold dateLt at *; omega

theorem dateLe_dateMax_left (a b : Date) : dateLe a (dateMax a b) := by
  unfold dateMax; split
  · exact dateLe_of_lt (by assumption)
  · exact dateLe_refl a

theorem dateLe_dateMax_right (a b : Date) : dateLe b (dateMax a b) := by
  unfold dateMax; split
  · exact dateLe_refl b
  · exact dateLe_of_not_lt (by assumption)

theorem dateLe_foldl_dateMax_init :
    ∀ (l : List Date) (acc : Date), dateLe acc (l.foldl dateMax acc)
  | [], acc => dateLe_refl acc
  | d :: ds, acc =>
    dateLe_trans (dateLe_dateMax_left acc d)
      (dateLe_foldl_dateMax_init ds (dateMax acc d))

theorem dateLe_foldl_dateMax_mem :
    ∀ (l : List Date) (acc x : Date), x ∈ l → dateLe x (l.foldl dateMax acc) := by
  intro l
  induction l with
  | nil => intro acc x hx; cases hx
  | cons d ds ih =>
    intro acc x hx
    rcases List.mem_cons.mp hx with h | h
    · subst h
      exact dateLe_trans (dateLe_dateMax_right acc x)
        (dateLe_foldl_dateMax_init ds _)
    · exact ih _ x h

theorem dateLt_nextDay (d : Date) : dateLt d (nextDay d) := by
  unfold nextDay
  split
  · exact Or.inr ⟨rfl, Or.inr ⟨rfl, Nat.lt_succ_self _⟩⟩
  · split
    · exact Or.inr ⟨rfl, Or.inl (Nat.lt_succ_self _)⟩
    · exact Or.inl (Nat.lt_succ_self _)

theorem dateLt_nextDay_foldl_of_mem {l : List Date} {d0 x : Date}
    (hx : x ∈ d0 :: l) : dateLt x (nextDay (l.foldl dateMax d0)) := by
  rcases List.mem_cons.mp hx with h | h
  · subst h
    exact dateLe_lt_trans (dateLe_foldl_dateMax_init l x) (dateLt_nextDay _)
  · exact dateLe_lt_trans (dateLe_foldl_dateMax_mem l d0 x h) (dateLt_nextDay _)

theorem load_users_loop_empty_page_diverges :
    ∀ (fuel total : Nat) (eff : Effects),
      load_users_loop (fun _ => .ok { page_count := some 1, users := some [] })
        fuel 1 1 total eff = .diverged := by
  intro fuel
  induction fuel with
  | zero => intro total eff; rfl
  | succ fuel ih =>
    intro total eff
    exact ih total { eff with requests := eff.requests + 1 }

theorem meetings_pages_preserves (resp : Nat → ApiResponse) :
    ∀ (fuel k : Nat) (acc : List Rec) (eff : Effects)
      (r : List Rec × Effects),
      meetings_pages resp fuel k acc eff = some r →
      r.2.inserts = eff.inserts ∧ r.2.meetingWindows = eff.meetingWindows ∧
        r.2.drops = eff.drops := by
  intro fuel
  induction fuel with
  | zero => intro k acc eff r h; simp [meetings_pages] at h
  | succ fuel ih =>
    intro k acc eff r h
    simp only [meetings_pages] at h
    by_cases ht : tokenTruthy (resp k).next_page_token
    · rw [if_pos ht] at h
      rcases ih _ _ _ _ h with ⟨h1, h2, h3⟩
      refine ⟨?_, ?_, ?_⟩ <;>
        simp_all [apply_ite Effects.inserts, apply_ite Effects.meetingWindows,
          apply_ite Effects.drops]
    · rw [if_neg ht] at h
      cases h
      refine ⟨?_, ?_, ?_⟩ <;>
        simp [apply_ite Effects.inserts, apply_ite Effects.meetingWindows,
          apply_ite Effects.drops]


theorem participants_pages_units (resp : Nat → ApiResponse) (uuid : String) :
    ∀ (fuel k total : Nat) (eff : Effects) (r : Nat × Nat × Effects),
      participants_pages resp uuid fuel k total eff = some r →
      ∀ x ∈ r.2.2.fetchedUnits, x ∈ eff.fetchedUnits ∨ x = uuid := by
  intro fuel
  induction fuel with
  | zero => intro k total eff r h; simp [participants_pages] at h
  | succ fuel ih =>
    intro k total eff r h
    simp only [participants_pages] at h
    by_cases ht : tokenTruthy (resp k).next_page_token
    · rw [if_pos ht] at h
      intro x hx
      rcases ih _ _ _ _ h x hx with hmem | hx2
      · simp only [List.mem_append, List.mem_singleton] at hmem
        tauto
      · exact Or.inr hx2
    · rw [if_neg ht] at h
      intro x hx
      have hr := Option.some.inj h
      rw [← hr] at hx
      simp at hx
      tauto

theorem load_participants_aux_units (resp : Nat → ApiResponse) :
    ∀ (uuids : List String) (fuel k total : Nat) (eff : Effects)
      (r : Nat × Effects),
      load_participants_aux resp uuids fuel k total eff = some r →
      ∀ x ∈ r.2.fetchedUnits, x ∈ eff.fetchedUnits ∨ x ∈ uuids := by
  intro uuids
  induction uuids with
  | nil =>
    intro fuel k total eff r h x hx
    have hr := Option.some.inj h
    rw [← hr] at hx
    simp at hx
    exact Or.inl hx
  | cons uuid rest ih =>
    intro fuel k total eff r h x hx
    simp only [load_participants_aux] at h
    cases hp : participants_pages resp uuid fuel k total eff with
    | none => rw [hp] at h; simp at h
    | some p =>
      obtain ⟨k2, total2, eff2⟩ := p
      rw [hp] at h
      rcases ih _ _ _ _ _ h x hx with hmem | hrest
      · rcases participants_pages_units resp uuid _ _ _ _ _ hp x hmem with h1 | h2
        · exact Or.inl h1
        · exact Or.inr (by simp [h2])
      · exact Or.inr (List.mem_cons_of_mem _ hrest)

theorem get_meeting_uuids_not_covered {parents children : List String}
    {x : String} (hx : x ∈ get_meeting_uuids true parents children) :
    x ∉ children := by
  unfold get_meeting_uuids at hx
  simp at hx
  exact hx.2

theorem load_users_loop_inserts (fetch : Nat → Except String UsersResponse) :
    ∀ (fuel page page_count total : Nat) (eff : Effects),
      ∀ ins ∈ (load_users_loop fetch fuel page page_count total eff).effects.inserts,
        ins ∈ eff.inserts ∨ ins.2.columns = USER_COLUMNS := by
  intro fuel
  induction fuel with
  | zero =>
    intro page pc total eff ins h
    simp [load_users_loop, Outcome.effects] at h
  | succ fuel ih =>
    intro page pc total eff ins h
    simp only [load_users_loop] at h
    split at h
    · split at h
      · simp [Outcome.effects] at h
        exact Or.inl h
      · split at h
        · rcases ih _ _ _ _ _ h with h1 | h1
          · simp_all [DataFrame.reindex]
          · exact Or.inr h1
        · rcases ih _ _ _ _ _ h with h1 | h1
          · simp_all [DataFrame.reindex]
            rcases h1 with h1 | rfl
            · exact Or.inl h1
            · exact Or.inr rfl
          · exact Or.inr h1
    · simp [Outcome.effects] at h
      exact Or.inl h

theorem create_accounts_loop_creates
    (createOutcome : String → Except String Unit) :
    ∀ (students : List Student) (eff : Effects),
      (create_accounts_loop createOutcome students eff).creates =
        eff.creates ++ students.map Student.email := by
  intro students
  induction students with
  | nil => intro eff; simp [create_accounts_loop]
  | cons s rest ih =>
    intro eff
    simp only [create_accounts_loop]
    cases hc : createOutcome s.email with
    | ok u => rw [ih]; simp
    | error e => rw [ih]; simp

theorem create_accounts_loop_requests
    (createOutcome : String → Except String Unit) :
    ∀ (students : List Student) (eff : Effects),
      (create_accounts_loop createOutcome students eff).requests =
        eff.requests + students.length := by
  intro students
  induction students with
  | nil => intro eff; simp [create_accounts_loop]
  | cons s rest ih =>
    intro eff
    simp only [create_accounts_loop]
    cases hc : createOutcome s.email with
    | ok u => rw [ih]; simp; omega
    | error e => rw [ih]; simp; omega

theorem create_accounts_loop_errorLogs_mono
    (createOutcome : String → Except String Unit) :
    ∀ (students : List Student) (eff : Effects) (x : String),
      x ∈ eff.errorLogs →
      x ∈ (create_accounts_loop createOutcome students eff).errorLogs := by
  intro students
  induction students with
  | nil => intro eff x hx; simpa [create_accounts_loop] using hx
  | cons s rest ih =>
    intro eff x hx
    simp only [create_accounts_loop]
    cases hc : createOutcome s.email with
    | ok u => exact ih _ x (by simp; exact hx)
    | error e => exact ih _ x (by simp; exact Or.inl hx)

theorem create_accounts_loop_logs_error
    (createOutcome : String → Except String Unit) :
    ∀ (students : List Student) (eff : Effects) (s : Student) (e : String),
      s ∈ students → createOutcome s.email = .error e →
      e ∈ (create_accounts_loop createOutcome students eff).errorLogs := by
  intro students
  induction students with
  | nil => intro eff s e hs; cases hs
  | cons s0 rest ih =>
    intro eff s e hs he
    simp only [create_accounts_loop]
    rcases List.mem_cons.mp hs with h | h
    · subst h
      rw [he]
      exact create_accounts_loop_errorLogs_mono createOutcome rest _ e
        (by simp)
    · cases hc : createOutcome s0.email with
      | ok u => exact ih _ s e h he
      | error e0 => exact ih _ s e h he

theorem settings_pages_notfound (mid : String) (f k : Nat) (res : List Rec)
    (eff : Effects) :
    settings_pages (fun _ => notFoundBody) mid (f + 1) k res eff =
      some (k + 1, res ++ [format_settings_data [] mid],
        { eff with requests := eff.requests + 1,
                   fetchedUnits := eff.fetchedUnits ++ [mid],
                   debugLogs := eff.debugLogs ++ [notFoundBody.message] }) := by
  rfl

theorem settings_aux_notfound (f : Nat) :
    ∀ (mids : List String) (k total : Nat) (eff : Effects),
      get_meeting_settings_aux (fun _ => notFoundBody) mids (f + 1) k total eff =
        some (total + mids.length,
          { eff with
            requests := eff.requests + mids.length,
            inserts := eff.inserts ++ mids.map (fun m =>
              ("Zoom_Meeting_Settings",
                pdDataFrame [format_settings_data [] m])),
            fetchedUnits := eff.fetchedUnits ++ mids,
            debugLogs := eff.debugLogs ++
              mids.map (fun _ => notFoundBody.message) }) := by
  intro mids
  induction mids with
  | nil => intro k total eff; simp [get_meeting_settings_aux]
  | cons mid rest ih =>
    intro k total eff
    have step : get_meeting_settings_aux (fun _ => notFoundBody)
        (mid :: rest) (f + 1) k total eff =
        get_meeting_settings_aux (fun _ => notFoundBody) rest (f + 1)
          (k + 1) (total + 1)
          { eff with requests := eff.requests + 1,
                     inserts := eff.inserts ++
                       [("Zoom_Meeting_Settings",
                         pdDataFrame [format_settings_data [] mid])],
                     fetchedUnits := eff.fetchedUnits ++ [mid],
                     debugLogs := eff.debugLogs ++ [notFoundBody.message] } :=
      rfl
    rw [step, ih]
    simp [List.append_assoc]
    omega

/-- C1: the claim states that for paginated fetches an empty batch is not an
error, the loop skips persisting it and still makes progress toward
termination.  The code contradicts the progress part: in the page-number
loop of Connector.load_users the page counter is advanced only inside the
truthy-batch branch, so a page within range whose users list is empty is
refetched forever.  At the failing input (page_count 1, page 1 empty) the
loop never terminates: for every fuel bound the run is diverged. -/
theorem c1_empty_batch_loops_forever (fuel : Nat) :
    load_users (fun _ => .ok emptyUsersBody) fuel = .diverged :=
  load_users_loop_empty_page_diverges fuel 0
    { requests := 1, drops := ["Zoom_Users"] }

/-- C2: the claim states that a rate-limited response is followed by one
fixed sleep and one re-issue of the identical request.  The code sleeps but
never re-issues: after the sleep the loop body falls through, reads the
absent next_page_token of the throttle body, and exits the pagination loop.
At the failing input the participants loop performs exactly one request with
one 10 second sleep and terminates, and the meetings loop performs exactly
one request with one 60 second sleep and terminates. -/
theorem c2_throttle_sleeps_then_stops :
    participants_pages (fun _ => throttleBody) "uuid-1" 5 0 0 ({} : Effects) =
      some (1, 0, { requests := 1, sleeps := [10], fetchedUnits := ["uuid-1"] })
    ∧ meetings_pages (fun _ => throttleBody) 5 0 [] ({} : Effects) =
      some ([], { requests := 1, sleeps := [60] }) :=
  ⟨rfl, rfl⟩

/-- C4: the meetings watermark is the day after the max persisted start_time
when rows exist (max 2024-03-10 gives 2024-03-11 whatever today is), and
otherwise August 1 of the academic year that rolls over after June (October
2024 gives 2024-08-01, March 2025 gives 2024-08-01); and whenever the
resolved date is today or later, load_meetings returns with zero requests
and zero inserts. -/
theorem c4_meetings_watermark :
    get_last_meeting_date ⟨2025, 4, 20⟩ true
        [⟨2024, 3, 8⟩, ⟨2024, 3, 10⟩, ⟨2024, 2, 1⟩] = ⟨2024, 3, 11⟩
    ∧ get_last_meeting_date ⟨2024, 10, 15⟩ false [] = ⟨2024, 8, 1⟩
    ∧ get_last_meeting_date ⟨2024, 10, 15⟩ true [] = ⟨2024, 8, 1⟩
    ∧ get_last_meeting_date ⟨2025, 3, 2⟩ false [] = ⟨2024, 8, 1⟩
    ∧ (∀ (today : Date) (tableExists : Bool) (persisted : List Date)
        (resp : Nat → ApiResponse) (fuel : Nat),
        dateLe today (get_last_meeting_date today tableExists persisted) →
        load_meetings today tableExists persisted resp fuel =
          .ok () ({} : Effects)) := by
  refine ⟨by decide, by decide, by decide, by decide, ?_⟩
  intro today tableExists persisted resp fuel h
  simp only [load_meetings]
  rw [if_pos h]

/-- Witness for C4: on 2024-08-01 with no persisted data the resolved date
is 2024-08-01 itself, today or later, so the load is a no-op. -/
theorem c4_meetings_watermark_witness :
    dateLe ⟨2024, 8, 1⟩ (get_last_meeting_date ⟨2024, 8, 1⟩ false [])
    ∧ load_meetings ⟨2024, 8, 1⟩ false [] (fun _ => throttleBody) 3 =
      .ok () ({} : Effects) :=
  ⟨by decide, c4_meetings_watermark.2.2.2.2 ⟨2024, 8, 1⟩ false []
    (fun _ => throttleBody) 3 (by decide)⟩

/-- C5: the key-bounded watermark resolvers for participants (keyed on
meeting uuid) and settings (keyed on meeting id) return exactly the parent
keys absent from the child table when it exists, and the full parent key set
when it does not; on parents A, B, C with child A the resolved list is
exactly B, C. -/
theorem c5_key_watermark_anti_join (parents children : List String) :
    (get_meeting_uuids true parents children).toFinset =
      parents.toFinset \ children.toFinset
    ∧ (get_meeting_uuids false parents children).toFinset = parents.toFinset
    ∧ (get_meeting_ids true parents children).toFinset =
      parents.toFinset \ children.toFinset
    ∧ (get_meeting_ids false parents children).toFinset = parents.toFinset
    ∧ get_meeting_uuids true ["A", "B", "C"] ["A"] = ["B", "C"]
    ∧ get_meeting_uuids false ["A", "B", "C"] [] = ["A", "B", "C"] := by
  refine ⟨?_, rfl, ?_, rfl, by decide, by decide⟩
  · ext a
    simp [get_meeting_uuids]
  · ext a
    simp [get_meeting_ids]

/-- C7 counterexample: at a concrete meetings run whose single fetched record
carries the extra API field host_video, the persisted Zoom_Meetings frame
has column list MEETING_COLUMNS ++ [host_video], not MEETING_COLUMNS: the
claim that every persisted Meetings batch is reindexed to the fixed column
list is false on the code. -/
theorem c7_meetings_not_reindexed :
    ((load_meetings ⟨2024, 10, 15⟩ false [] (fun _ => driftedMeetingBody)
        3).effects.inserts.map (fun ins => ins.2.columns)) =
      [MEETING_COLUMNS ++ ["host_video"]]
    ∧ MEETING_COLUMNS ++ ["host_video"] ≠ MEETING_COLUMNS := by
  refine ⟨by decide, by decide⟩

/-- C7 amended: only the Users load reindexes every persisted batch to the
fixed USER_COLUMNS list; the Meetings load persists each batch with the raw
dataframe columns (the key union of the accumulated records, MEETING_COLUMNS
is never applied), so for Meetings a field the API adds or removes does
change the persisted column set. -/
theorem c7_reindex_users_only (fetch : Nat → Except String UsersResponse)
    (fuel : Nat) (today : Date) (tableExists : Bool) (persisted : List Date)
    (resp : Nat → ApiResponse) (fuelM : Nat) :
    (∀ ins ∈ (load_users fetch fuel).effects.inserts,
        ins.2.columns = USER_COLUMNS)
    ∧ (∀ ins ∈ (load_meetings today tableExists persisted
          resp fuelM).effects.inserts,
        ins.2.columns = dfColumns ins.2.records) := by
  constructor
  · intro ins h
    unfold load_users at h
    split at h
    · simp [Outcome.effects] at h
    · split at h
      · simp [Outcome.effects] at h
      · rcases load_users_loop_inserts fetch fuel 1 _ 0 _ ins h with h1 | h1
        · simp at h1
        · exact h1
  · intro ins h
    simp only [load_meetings] at h
    split at h
    · simp [Outcome.effects] at h
    · split at h
      · simp [Outcome.effects] at h
      · rename_i ms eff heq
        have hpres := meetings_pages_preserves resp _ _ _ _ _ heq
        split at h
        · simp only [Outcome.effects] at h
          rw [hpres.1] at h
          simp at h
        · simp only [Outcome.effects] at h
          rw [hpres.1] at h
          simp at h
          subst h
          rfl

/-- Witness for C7: on a concrete one-page users run the persisted batch is
reindexed to USER_COLUMNS. -/
theorem c7_reindex_users_only_witness :
    ("Zoom_Users", DataFrame.reindex (pdDataFrame [[("id", some "u1")]])
      USER_COLUMNS).2.columns = USER_COLUMNS :=
  (c7_reindex_users_only
    (fun _ => .ok { page_count := some 1, users := some [[("id", some "u1")]] })
    3 ⟨2024, 10, 15⟩ false [] (fun _ => throttleBody) 3).1
    ("Zoom_Users", DataFrame.reindex (pdDataFrame [[("id", some "u1")]])
      USER_COLUMNS) (by decide)

/-- C8 counterexample: at a concrete settings run where the only meeting
returns Zoom error 3001, the run persists one Zoom_Meeting_Settings row for
that meeting (the formatted placeholder built from the empty settings dict):
the claim that the unit contributes no persisted row is false on the code. -/
theorem c8_notfound_row_is_persisted :
    (get_meeting_settings (fun _ => notFoundBody) ["98877665544"] 5).map
        (fun r => r.2.inserts) =
      some [("Zoom_Meeting_Settings",
        pdDataFrame [format_settings_data [] "98877665544"])]
    ∧ (get_meeting_settings (fun _ => notFoundBody) ["98877665544"] 5).map
        (fun r => r.2.inserts) ≠ some [] := by
  refine ⟨by decide, by decide⟩

/-- C8 amended: when the settings endpoint reports code 3001 for a meeting,
the message is logged at debug level and the load continues to the next
unit, but the unit is not empty in the persisted store: exactly one
placeholder row (the meeting id with null settings fields) is inserted per
unit.  Evaluated over any meeting id list against a source that always
answers 3001. -/
theorem c8_notfound_logged_skipped_but_row_persisted
    (mids : List String) (f : Nat) :
    get_meeting_settings (fun _ => notFoundBody) mids (f + 1) =
      some (mids.length,
        { requests := mids.length,
          inserts := mids.map (fun m => ("Zoom_Meeting_Settings",
            pdDataFrame [format_settings_data [] m])),
          fetchedUnits := mids,
          debugLogs := mids.map (fun _ => notFoundBody.message) }) := by
  have h := settings_aux_notfound f mids 0 0 ({} : Effects)
  simpa [get_meeting_settings] using h

/-- C9: student account provisioning is fault isolated per unit: whatever
the per-student creation outcomes are, every student in the batch gets a
creation call (the creates trace lists every email in order), any failing
creation has its error logged, and the function returns normally; and when
the final bulk group-add fails, its error and the response body are logged
and the function still returns normally rather than raising. -/
theorem c9_student_fault_isolation (students : List Student)
    (createOutcome : String → Except String Unit) (gid : String)
    (gids : List String) (bulkText : String) :
    (∀ bulkOutcome, ∃ eff,
        create_student_accounts students createOutcome (gid :: gids)
            bulkOutcome bulkText = .ok () eff
        ∧ eff.creates = students.map Student.email
        ∧ ∀ s ∈ students, ∀ e, createOutcome s.email = .error e →
            e ∈ eff.errorLogs)
    ∧ (∀ be, ∃ eff,
        create_student_accounts students createOutcome (gid :: gids)
            (.error be) bulkText = .ok () eff
        ∧ be ∈ eff.errorLogs ∧ bulkText ∈ eff.errorLogs) := by
  constructor
  · intro bulkOutcome
    cases bulkOutcome with
    | ok u =>
      refine ⟨_, rfl, ?_, ?_⟩
      · have h := create_accounts_loop_creates createOutcome students
          ({} : Effects)
        simpa using h
      · intro s hs e he
        have h := create_accounts_loop_logs_error createOutcome students
          ({} : Effects) s e hs he
        simpa using h
    | error be =>
      refine ⟨_, rfl, ?_, ?_⟩
      · have h := create_accounts_loop_creates createOutcome students
          ({} : Effects)
        simpa using h
      · intro s hs e he
        have h := create_accounts_loop_logs_error createOutcome students
          ({} : Effects) s e hs he
        simp
        exact Or.inl h
  · intro be
    refine ⟨_, rfl, ?_, ?_⟩
    · simp
    · simp

/-- Witness for C9: a batch of three students whose middle creation fails
and whose bulk group-add also fails: all three creations are attempted, the
failure is logged, and the run returns normally. -/
theorem c9_student_fault_isolation_witness :
    (∀ bulkOutcome, ∃ eff,
        create_student_accounts
            [⟨"a@s.org"⟩, ⟨"b@s.org"⟩, ⟨"c@s.org"⟩]
            (fun em => if em == "b@s.org" then .error "HTTPError 409" else .ok ())
            ("g1" :: []) bulkOutcome "bulk body" = .ok () eff
        ∧ eff.creates = List.map Student.email
            [⟨"a@s.org"⟩, ⟨"b@s.org"⟩, ⟨"c@s.org"⟩]
        ∧ ∀ s ∈ ([⟨"a@s.org"⟩, ⟨"b@s.org"⟩, ⟨"c@s.org"⟩] : List Student),
            ∀ e, (fun em => if em == "b@s.org" then
                (.error "HTTPError 409" : Except String Unit) else .ok ())
              s.email = .error e → e ∈ eff.errorLogs)
    ∧ (∀ be, ∃ eff,
        create_student_accounts
            [⟨"a@s.org"⟩, ⟨"b@s.org"⟩, ⟨"c@s.org"⟩]
            (fun em => if em == "b@s.org" then .error "HTTPError 409" else .ok ())
            ("g1" :: []) (.error be) "bulk body" = .ok () eff
        ∧ be ∈ eff.errorLogs ∧ "bulk body" ∈ eff.errorLogs) :=
  c9_student_fault_isolation
    [⟨"a@s.org"⟩, ⟨"b@s.org"⟩, ⟨"c@s.org"⟩]
    (fun em => if em == "b@s.org" then .error "HTTPError 409" else .ok ())
    "g1" [] "bulk body"

/-- C10: for the full-replace Users and Groups loads the drop of the
destination table happens only after the first request has returned a
parsed response: when the initial fetch raises, the run propagates the
exception with no drop and no insert performed (the previously loaded table
is untouched), and conversely any run that performed a drop obtained a
response from its first fetch. -/
theorem c10_drop_only_after_response
    (fetch : Nat → Except String UsersResponse)
    (gfetch : Unit → Except String GroupsResponse) (fuel : Nat)
    (e eg : String) (hu : fetch 1 = .error e) (hg : gfetch () = .error eg) :
    load_users fetch fuel = .raised e { requests := 1 }
    ∧ load_groups gfetch = .raised eg { requests := 1 }
    ∧ (∀ (fetch2 : Nat → Except String UsersResponse) (fuel2 : Nat),
        (load_users fetch2 fuel2).effects.drops ≠ [] →
        ∃ r, fetch2 1 = .ok r)
    ∧ (∀ gfetch2 : Unit → Except String GroupsResponse,
        (load_groups gfetch2).effects.drops ≠ [] →
        ∃ r, gfetch2 () = .ok r) := by
  refine ⟨?_, ?_, ?_, ?_⟩
  · unfold load_users; rw [hu]
  · unfold load_groups; rw [hg]
  · intro fetch2 fuel2 hne
    cases hf : fetch2 1 with
    | ok r => exact ⟨r, rfl⟩
    | error e2 =>
      have hlu : load_users fetch2 fuel2 = .raised e2 { requests := 1 } := by
        unfold load_users; rw [hf]
      rw [hlu] at hne
      exact absurd rfl hne
  · intro gfetch2 hne
    cases hf : gfetch2 () with
    | ok r => exact ⟨r, rfl⟩
    | error e2 =>
      have hlg : load_groups gfetch2 = .raised e2 { requests := 1 } := by
        unfold load_groups; rw [hf]
      rw [hlg] at hne
      exact absurd rfl hne

/-- Witness for C10: a connection error on the very first request leaves
both full-replace tables untouched. -/
theorem c10_drop_only_after_response_witness :
    load_users (fun _ => .error "ConnectionError") 3 =
      .raised "ConnectionError" { requests := 1 }
    ∧ load_groups (fun _ => .error "ConnectionError") =
      .raised "ConnectionError" { requests := 1 } := by
  have h := c10_drop_only_after_response (fun _ => .error "ConnectionError")
    (fun _ => .error "ConnectionError") 3 "ConnectionError" "ConnectionError"
    rfl rfl
  exact ⟨h.1, h.2.1⟩

theorem settings_pages_units (resp : Nat → ApiResponse) (mid : String) :
    ∀ (fuel k : Nat) (res : List Rec) (eff : Effects)
      (r : Nat × List Rec × Effects),
      settings_pages resp mid fuel k res eff = some r →
      ∀ x ∈ r.2.2.fetchedUnits, x ∈ eff.fetchedUnits ∨ x = mid := by
  intro fuel
  induction fuel with
  | zero => intro k res eff r h; simp [settings_pages] at h
  | succ fuel ih =>
    intro k res eff r h
    simp only [settings_pages] at h
    by_cases ht : tokenTruthy (resp k).next_page_token
    · rw [if_pos ht] at h
      intro x hx
      rcases ih _ _ _ _ h x hx with hmem | hx2
      · simp only [List.mem_append, List.mem_singleton] at hmem
        tauto
      · exact Or.inr hx2
    · rw [if_neg ht] at h
      intro x hx
      have hr := Option.some.inj h
      rw [← hr] at hx
      simp at hx
      tauto

theorem get_meeting_settings_aux_units (resp : Nat → ApiResponse) :
    ∀ (mids : List String) (fuel k total : Nat) (eff : Effects)
      (r : Nat × Effects),
      get_meeting_settings_aux resp mids fuel k total eff = some r →
      ∀ x ∈ r.2.fetchedUnits, x ∈ eff.fetchedUnits ∨ x ∈ mids := by
  intro mids
  induction mids with
  | nil =>
    intro fuel k total eff r h x hx
    have hr := Option.some.inj h
    rw [← hr] at hx
    simp at hx
    exact Or.inl hx
  | cons mid rest ih =>
    intro fuel k total eff r h x hx
    simp only [get_meeting_settings_aux] at h
    split at h
    · simp at h
    · rename_i k2 results eff2 heq
      split at h
      · rcases ih _ _ _ _ _ h x hx with hmem | hrest
        · rcases settings_pages_units resp mid _ _ _ _ _ heq x hmem with h1 | h2
          · exact Or.inl h1
          · exact Or.inr (by simp [h2])
        · exact Or.inr (List.mem_cons_of_mem _ hrest)
      · rcases ih _ _ _ _ _ h x hx with hmem | hrest
        · rcases settings_pages_units resp mid _ _ _ _ _ heq x hmem with h1 | h2
          · exact Or.inl h1
          · exact Or.inr (by simp [h2])
        · exact Or.inr (List.mem_cons_of_mem _ hrest)

theorem get_meeting_ids_not_covered {parents children : List String}
    {x : String} (hx : x ∈ get_meeting_ids true parents children) :
    x ∉ children := by
  unfold get_meeting_ids at hx
  simp at hx
  exact hx.2

/-- C6: the resolved watermark strictly bounds what is re-fetched for every
append-only entity: every meeting uuid for which the participants loader
issues a request is outside the set already covered by participant rows,
every meetings request window is a single day strictly later than every
persisted start_time date, and every meeting id for which the settings
loader issues a request is outside the set already covered by settings
rows; so a re-run with no intervening external writes never covers an
already-covered key or time window. -/
theorem c6_watermark_bounds_refetch
    (parents children parentsS childrenS : List String)
    (today : Date) (persisted : List Date)
    (respP respM respS : Nat → ApiResponse) (fuelP fuelM fuelS : Nat) :
    (∀ u ∈ (load_participants true parents children
        respP fuelP).effects.fetchedUnits, u ∉ children)
    ∧ (∀ w ∈ (load_meetings today true persisted
        respM fuelM).effects.meetingWindows,
        w.2 = w.1 ∧ ∀ d ∈ persisted, dateLt d w.1)
    ∧ (∀ r, load_meeting_settings true parentsS childrenS respS fuelS =
          some r → ∀ i ∈ r.2.fetchedUnits, i ∉ childrenS) := by
  refine ⟨?_, ?_, ?_⟩
  · intro u hu
    simp only [load_participants] at hu
    split at hu
    · simp [Outcome.effects] at hu
    · rename_i total eff heq
      simp only [Outcome.effects] at hu
      rcases load_participants_aux_units respP _ _ _ _ _ _ heq u hu with h | h
      · simp at h
      · exact get_meeting_uuids_not_covered h
  · intro w hw
    simp only [load_meetings] at hw
    split at hw
    · simp [Outcome.effects] at hw
    · rename_i hle
      split at hw
      · simp [Outcome.effects] at hw
      · rename_i ms eff heq
        have hpres := meetings_pages_preserves respM _ _ _ _ _ heq
        have hww : w ∈ eff.meetingWindows := by
          split at hw
          · simpa [Outcome.effects] using hw
          · simpa [Outcome.effects] using hw
        rw [hpres.2.1] at hww
        simp at hww
        subst hww
        refine ⟨rfl, ?_⟩
        intro d hd
        cases persisted with
        | nil => cases hd
        | cons p ps =>
          simp only [get_last_meeting_date]
          exact dateLt_nextDay_foldl_of_mem hd
  · intro r h i hi
    unfold load_meeting_settings get_meeting_settings at h
    rcases get_meeting_settings_aux_units respS _ _ _ _ _ _ h i hi with h1 | h1
    · simp at h1
    · exact get_meeting_ids_not_covered h1

/-- Witness for C6: with parents A, B, C and covered child key A, uuid B is
fetched by the participants loader and id C by the settings loader, and
neither is covered; with persisted max 2024-03-10 the resolved window day
2024-03-11 is strictly later than the persisted date. -/
theorem c6_watermark_bounds_refetch_witness :
    ("B" : String) ∉ (["A"] : List String)
    ∧ dateLt ⟨2024, 3, 10⟩ ⟨2024, 3, 11⟩
    ∧ ("C" : String) ∉ (["A"] : List String) := by
  refine ⟨?_, ?_, ?_⟩
  · exact (c6_watermark_bounds_refetch ["A", "B", "C"] ["A"] ["A", "B", "C"]
      ["A"] ⟨2024, 10, 15⟩ [⟨2024, 3, 10⟩]
      (fun _ => { participants := some [[("id", some "p1")]] })
      (fun _ => { meetings := some [] }) (fun _ => notFoundBody)
      3 3 3).1 "B" (by decide)
  · exact ((c6_watermark_bounds_refetch ["A", "B", "C"] ["A"] ["A", "B", "C"]
      ["A"] ⟨2024, 10, 15⟩ [⟨2024, 3, 10⟩]
      (fun _ => { participants := some [[("id", some "p1")]] })
      (fun _ => { meetings := some [] }) (fun _ => notFoundBody)
      3 3 3).2.1 (⟨2024, 3, 11⟩, ⟨2024, 3, 11⟩) (by decide)).2
      ⟨2024, 3, 10⟩ (by decide)
  · exact (c6_watermark_bounds_refetch ["A", "B", "C"] ["A"] ["A", "B", "C"]
      ["A"] ⟨2024, 10, 15⟩ [⟨2024, 3, 10⟩]
      (fun _ => { participants := some [[("id", some "p1")]] })
      (fun _ => { meetings := some [] }) (fun _ => notFoundBody)
      3 3 3).2.2
      (2, { requests := 2,
            inserts := [("Zoom_Meeting_Settings",
                pdDataFrame [format_settings_data [] "B"]),
              ("Zoom_Meeting_Settings",
                pdDataFrame [format_settings_data [] "C"])],
            fetchedUnits := ["B", "C"],
            debugLogs := [some "Meeting does not exist or has expired.",
              some "Meeting does not exist or has expired."] })
      (by decide) "C" (by decide)

/-- C3 counterexample: the claim says the transient-failure retry wraps each
single remote call.  At a concrete input where only the single page-2
request of load_users fails transiently once, the decorated loader re-runs
its whole body: the initial request is issued again, the destination table
is dropped a second time, and the already-persisted page-1 batch is
inserted again (6 requests, 2 drops, 3 inserted batches after one backoff
sleep), where a wrapper around the single failed call would re-issue only
that call over one drop with each batch inserted once. -/
theorem c3_single_call_retry_refuted :
    (load_users_with_retry retryScriptFetch 5).effects.drops =
      ["Zoom_Users", "Zoom_Users"]
    ∧ (load_users_with_retry retryScriptFetch 5).effects.requests = 6
    ∧ (load_users_with_retry retryScriptFetch 5).effects.sleeps = [4]
    ∧ (load_users_with_retry retryScriptFetch 5).effects.inserts.map
        (fun i => i.2.records) =
      [[[("id", some "u1")]], [[("id", some "u1")]], [[("id", some "u2")]]]
    ∧ (["Zoom_Users", "Zoom_Users"] : List String) ≠ ["Zoom_Users"] := by
  refine ⟨rfl, rfl, rfl, rfl, by decide⟩

/-- C3 amended: the transient-failure retry of RETRY_PARAMS wraps each whole
decorated loader function rather than each single remote call, shown on
load_users: an attempt that raises is followed by one backoff sleep and a
re-run of the entire loader body, whose effects add to the ones already
performed; the budget is 3 attempts with backoff sleeps of 4 then 8 seconds
(doubling from 4, capped at 10): a loader failing transiently twice then
succeeding completes with exactly the two backoff sleeps interleaved
between the three full runs, and a loader raising on all 3 attempts
surfaces the last error with no 4th run. -/
theorem c3_loader_level_retry
    (fetchAt gAt : Nat → Nat → Except String UsersResponse)
    (fuel gfuel total : Nat) (e1 e2 f1 f2 f3 : String)
    (eff1 eff2 eff3 geff1 geff2 geff3 : Effects)
    (h1 : load_users (fetchAt 1) fuel = .raised e1 eff1)
    (h2 : load_users (fetchAt 2) fuel = .raised e2 eff2)
    (h3 : load_users (fetchAt 3) fuel = .ok total eff3)
    (g1 : load_users (gAt 1) gfuel = .raised f1 geff1)
    (g2 : load_users (gAt 2) gfuel = .raised f2 geff2)
    (g3 : load_users (gAt 3) gfuel = .raised f3 geff3) :
    load_users_with_retry fetchAt fuel = .ok total
      (((((({} : Effects).merge eff1).merge (sleepEffect 4)).merge
        eff2).merge (sleepEffect 8)).merge eff3)
    ∧ load_users_with_retry gAt gfuel = .raised f3
      (((((({} : Effects).merge geff1).merge (sleepEffect 4)).merge
        geff2).merge (sleepEffect 8)).merge geff3)
    ∧ (∀ n, 4 ≤ backoff_wait n ∧ backoff_wait n ≤ 10)
    ∧ backoff_wait 2 = 2 * backoff_wait 1 := by
  refine ⟨?_, ?_, ?_, by decide⟩
  · simp [load_users_with_retry, load_users_attempts, h1, h2, h3,
      backoff_wait]
  · simp [load_users_with_retry, load_users_attempts, g1, g2, g3,
      backoff_wait]
  · intro n; unfold backoff_wait; omega

/-- Witness for C3: a loader whose first two attempts raise on the initial
request and whose third attempt succeeds with one page, and a loader whose
every attempt raises. -/
theorem c3_loader_level_retry_witness :
    load_users_with_retry
        (fun attempt _ => if attempt ≤ 2 then .error "ConnectionError"
          else .ok { page_count := some 1,
                     users := some [[("id", some "u1")]] }) 3 = .ok 1
      (((((({} : Effects).merge { requests := 1 }).merge
        (sleepEffect 4)).merge { requests := 1 }).merge
        (sleepEffect 8)).merge
        { requests := 2, drops := ["Zoom_Users"],
          inserts := [("Zoom_Users",
            DataFrame.reindex (pdDataFrame [[("id", some "u1")]])
              USER_COLUMNS)] })
    ∧ load_users_with_retry (fun _ _ => .error "ConnectionError") 3 =
      .raised "ConnectionError"
      (((((({} : Effects).merge { requests := 1 }).merge
        (sleepEffect 4)).merge { requests := 1 }).merge
        (sleepEffect 8)).merge { requests := 1 })
    ∧ (∀ n, 4 ≤ backoff_wait n ∧ backoff_wait n ≤ 10)
    ∧ backoff_wait 2 = 2 * backoff_wait 1 :=
  c3_loader_level_retry
    (fun attempt _ => if attempt ≤ 2 then .error "ConnectionError"
      else .ok { page_count := some 1, users := some [[("id", some "u1")]] })
    (fun _ _ => .error "ConnectionError") 3 3 1
    "ConnectionError" "ConnectionError" "ConnectionError" "ConnectionError"
    "ConnectionError" { requests := 1 } { requests := 1 }
    { requests := 2, drops := ["Zoom_Users"],
      inserts := [("Zoom_Users",
        DataFrame.reindex (pdDataFrame [[("id", some "u1")]]) USER_COLUMNS)] }
    { requests := 1 } { requests := 1 } { requests := 1 }
    rfl rfl rfl rfl rfl rfl
